import Mathlib

/-!
Verification development for the heart-disease ML pipeline repository.

The definitions below are shallow embeddings of the Python source:
  - `src/api/main.py` (serving path: `load_model`, `predict`, the module-level
    model cache, the column renaming applied to incoming records),
  - `src/src/model_training.py` (`ModelTrainer.get_model`),
  - `src/src/data_preprocessing.py` (`DataPreprocessor.clean_heart_disease_data`,
    `remove_outliers`, `normalize_features`, `balance_classes`,
    `apply_onehot_encoding`).
Numbers are modelled as rationals; pandas NaN is modelled as `Option.none`
where the source can produce it.
-/

namespace HeartPipeline

/-! ## Serving path: `src/api/main.py` -/

/-- A trained model as the serving layer sees it: a `predict` function over a
single-row frame (ordered column-name/value pairs) and an optional
`predict_proba` (absent for models without that attribute).  `predict` returns
the integer class label, `predict_proba` the positive-class probability
(`predict_proba(df)[0][1]` in the source). -/
structure MLModel where
  predictFn : List (String × ℚ) → ℤ
  probaFn : Option (List (String × ℚ) → ℚ)

/-- The module-level cache of `src/api/main.py`: globals `_cached_model` and
`_cached_model_name`. -/
structure CacheState where
  cachedModel : Option MLModel
  cachedName : Option String

/-- The empty cache (both globals `None`, the state at process start). -/
def emptyCache : CacheState := { cachedModel := none, cachedName := none }

/-- `fastapi.HTTPException(status_code, detail)`. -/
inductive ApiError where
  | httpError (status : ℕ) (detail : String)
deriving DecidableEq

/-- `str(HTTPException)` as Starlette renders it: "status: detail". -/
def errMsg : ApiError → String
  | .httpError s d => toString s ++ ": " ++ d

/-- `settings.DEFAULT_MODEL` from `src/api/config.py`. -/
def DEFAULT_MODEL : String := "random_forest"

/-- Detail string of the 404 raised in `load_model` ("Modelo '<name>' não
encontrado"; the source wraps the name in single quotation marks, elided
here). -/
def notFoundMsg (name : String) : String := "Modelo " ++ name ++ " não encontrado"

/-- The model registry as the serving layer consumes it:
`mlflow_client.load_model("models:/<name>/latest")`, `none` when the registry
has no model under that name. -/
abbrev Registry : Type := String → Option MLModel

/-- `load_model` from `src/api/main.py` (lines 76-99).  Returns the loaded
model or the raised `HTTPException`, the new cache state, and — as ghost
instrumentation for the cache claims — the number of registry fetches the call
performed (0 on a cache hit, 1 otherwise). -/
def load_model (registry : Registry) (modelName : Option String) (st : CacheState) :
    Except ApiError MLModel × CacheState × ℕ :=
  match st.cachedModel with
  | some m =>
    if st.cachedName = some (modelName.getD DEFAULT_MODEL) then (.ok m, st, 0)
    else
      match registry (modelName.getD DEFAULT_MODEL) with
      | none =>
        (.error (.httpError 404 (notFoundMsg (modelName.getD DEFAULT_MODEL))), st, 1)
      | some m₂ =>
        (.ok m₂, { cachedModel := some m₂,
                   cachedName := some (modelName.getD DEFAULT_MODEL) }, 1)
  | none =>
    match registry (modelName.getD DEFAULT_MODEL) with
    | none =>
      (.error (.httpError 404 (notFoundMsg (modelName.getD DEFAULT_MODEL))), st, 1)
    | some m₂ =>
      (.ok m₂, { cachedModel := some m₂,
                 cachedName := some (modelName.getD DEFAULT_MODEL) }, 1)

/-- `PatientData` from `src/api/models.py`: the 11 validated numeric fields, in
pydantic declaration order. -/
structure PatientData where
  age : ℤ
  sex : ℤ
  chest_pain_type : ℤ
  resting_bp : ℤ
  cholesterol : ℤ
  fasting_bs : ℤ
  resting_ecg : ℤ
  max_hr : ℤ
  exercise_angina : ℤ
  oldpeak : ℚ
  st_slope : ℤ

/-- `patient.dict()` turned into the one-row frame
`pd.DataFrame([patient_dict])`: columns in field declaration order. -/
def patientRow (p : PatientData) : List (String × ℚ) :=
  [("age", (p.age : ℚ)), ("sex", (p.sex : ℚ)),
   ("chest_pain_type", (p.chest_pain_type : ℚ)), ("resting_bp", (p.resting_bp : ℚ)),
   ("cholesterol", (p.cholesterol : ℚ)), ("fasting_bs", (p.fasting_bs : ℚ)),
   ("resting_ecg", (p.resting_ecg : ℚ)), ("max_hr", (p.max_hr : ℚ)),
   ("exercise_angina", (p.exercise_angina : ℚ)), ("oldpeak", p.oldpeak),
   ("st_slope", (p.st_slope : ℚ))]

/-- The `column_mapping` dict of the `predict` endpoint (snake_case API names
to the column names the model was trained on); identity elsewhere, as
`DataFrame.rename` leaves unmapped columns alone. -/
def column_mapping (s : String) : String :=
  (([("chest_pain_type", "chest pain type"), ("resting_bp", "resting bp s"),
     ("fasting_bs", "fasting blood sugar"), ("resting_ecg", "resting ecg"),
     ("max_hr", "max heart rate"), ("exercise_angina", "exercise angina"),
     ("st_slope", "ST slope")] : List (String × String)).lookup s).getD s

/-- `patient_df.rename(columns=column_mapping)` applied to a one-row frame. -/
def renameCols (fr : List (String × ℚ)) : List (String × ℚ) :=
  fr.map (fun kv => (column_mapping kv.1, kv.2))

/-- The feature frame the `predict` endpoint hands to `model.predict`: the
renamed patient frame.  No other transform is applied in the source (the
endpoint's preprocessing step is an unexecuted TODO at `src/api/main.py:196`). -/
def servingFrame (p : PatientData) : List (String × ℚ) :=
  renameCols (patientRow p)

/-- `PredictionResponse` from `src/api/models.py` (the timestamp field is
elided: wall-clock time is outside the embedding). -/
structure PredictionResponse where
  prediction : ℤ
  probability : ℚ
  model_name : String
  model_version : String
deriving DecidableEq

/-- The probability the endpoint reports: `predict_proba(df)[0][1]` when the
model exposes it, otherwise `float(prediction)` — the label cast to a float. -/
def probOf (m : MLModel) (df : List (String × ℚ)) : ℚ :=
  match m.probaFn with
  | some f => f df
  | none => ((m.predictFn df : ℤ) : ℚ)

/-- The `/predict` endpoint from `src/api/main.py` (lines 155-228): loads the
model through the cache, renames the record's columns, calls `predict` and, if
available, `predict_proba` (otherwise the label cast to float stands in for
the probability); any exception — including the 404 from `load_model` — is
caught and re-raised as a 500 `HTTPException` embedding its message.  Returns
the response or the raised error, the cache state afterwards, and the ghost
registry-fetch count. -/
def predictEndpoint (registry : Registry) (patient : PatientData)
    (modelName : Option String) (st : CacheState) :
    Except ApiError PredictionResponse × CacheState × ℕ :=
  match load_model registry modelName st with
  | (.error e, st₂, n) =>
    (.error (.httpError 500 ("Erro na predição: " ++ errMsg e)), st₂, n)
  | (.ok m, st₂, n) =>
    (.ok { prediction := m.predictFn (servingFrame patient),
           probability := probOf m (servingFrame patient),
           model_name := modelName.getD DEFAULT_MODEL, model_version := "1" }, st₂, n)

/-! ## `ModelTrainer.get_model` from `src/src/model_training.py` -/

/-- A scikit-learn hyperparameter value as passed to a constructor. -/
inductive PVal where
  | num (q : ℚ)
  | str (s : String)
  | boolean (b : Bool)
deriving DecidableEq

/-- The seven registered algorithm constructors of `models_dict`. -/
inductive Algo where
  | random_forest
  | gradient_boosting
  | svm
  | logistic_regression
  | decision_tree
  | naive_bayes
  | knn
deriving DecidableEq

/-- The `model_aliases` dict: tuned-variant names resolving to base names. -/
def model_aliases : List (String × String) :=
  [("random_forest_tuned", "random_forest"),
   ("random_forest_optimized", "random_forest"),
   ("logistic_regression_tuned", "logistic_regression"),
   ("svm_tuned", "svm")]

/-- The `models_dict` mapping of registered algorithm identifiers to
constructors; `none` for anything unregistered. -/
def models_dict : String → Option Algo
  | "random_forest" => some .random_forest
  | "gradient_boosting" => some .gradient_boosting
  | "svm" => some .svm
  | "logistic_regression" => some .logistic_regression
  | "decision_tree" => some .decision_tree
  | "naive_bayes" => some .naive_bayes
  | "knn" => some .knn
  | _ => none

/-- The `default_params` table of `get_model`. -/
def default_params : Algo → List (String × PVal)
  | .random_forest => [("n_estimators", .num 100), ("random_state", .num 42)]
  | .gradient_boosting => [("n_estimators", .num 100), ("random_state", .num 42)]
  | .svm => [("kernel", .str "rbf"), ("probability", .boolean true), ("random_state", .num 42)]
  | .logistic_regression => [("max_iter", .num 1000), ("random_state", .num 42)]
  | .decision_tree => [("random_state", .num 42)]
  | .naive_bayes => []
  | .knn => [("n_neighbors", .num 5)]

/-- Python's dict merge `{**default_params, **kwargs}`: default keys keep their
position but kwargs values win; kwargs-only keys are appended. -/
def mergeParams (d k : List (String × PVal)) : List (String × PVal) :=
  d.map (fun kv => (kv.1, (k.lookup kv.1).getD kv.2))
    ++ k.filter (fun kv => (d.lookup kv.1).isNone)

/-- An instantiated (untrained) scikit-learn model: resolved constructor plus
the merged hyperparameter set. -/
structure SkModel where
  algo : Algo
  params : List (String × PVal)
deriving DecidableEq

/-- `ModelTrainer.get_model` from `src/src/model_training.py` (lines 31-84):
resolves aliases, looks the name up in `models_dict`, and on a miss logs an
error and returns `None` (modelled as `none`); otherwise constructs the model
with defaults merged under the caller's kwargs. -/
def get_model (model_name : String) (kwargs : List (String × PVal)) : Option SkModel :=
  match models_dict ((model_aliases.lookup model_name).getD model_name) with
  | none => none
  | some a => some { algo := a, params := mergeParams (default_params a) kwargs }

/-! ## `DataPreprocessor.clean_heart_disease_data` from `src/src/data_preprocessing.py` -/

/-- A pandas cell: a rational, or `none` for NaN. -/
abbrev Val := Option ℚ

/-- A row of the raw heart-disease table.  The two columns
`clean_heart_disease_data` repairs are explicit; all remaining columns
(`target` included) are carried opaquely in `other` so that duplicate removal
still compares entire rows, exactly as `DataFrame.drop_duplicates` does. -/
structure HRow where
  restingBp : Val
  chol : Val
  other : List Val
deriving DecidableEq

/-- pandas `x == 0` on a cell (`False` on NaN). -/
def isZeroV : Val → Bool
  | some q => decide (q = 0)
  | none => false

/-- pandas `x > 0` on a cell (`False` on NaN). -/
def isPosV : Val → Bool
  | some q => decide (0 < q)
  | none => false

/-- `DataFrame.drop_duplicates` keeps the first occurrence of each row.
`seen` accumulates rows already emitted. -/
def dedupFirstAux {α : Type} [DecidableEq α] (seen : List α) : List α → List α
  | [] => []
  | r :: rs => if r ∈ seen then dedupFirstAux seen rs else r :: dedupFirstAux (r :: seen) rs

/-- `drop_duplicates().reset_index(drop=True)` (the index is positional in
this embedding, so the reset is implicit). -/
def dedupFirst {α : Type} [DecidableEq α] (l : List α) : List α := dedupFirstAux [] l

/-- pandas `Series.median` over a list of rationals: midpoint of the sorted
list, NaN (`none`) on an empty series. -/
def medianQ (l : List ℚ) : Option ℚ :=
  let s := l.insertionSort (· ≤ ·)
  let n := s.length
  if n = 0 then none
  else if n % 2 = 1 then some (s.getD (n / 2) 0)
  else some ((s.getD (n / 2 - 1) 0 + s.getD (n / 2) 0) / 2)

/-- `df.loc[df[col] > 0, col]`: the strictly positive cell values of a column
(NaN cells are not `> 0` and drop out). -/
def posVals (get : HRow → Val) (rows : List HRow) : List ℚ :=
  (rows.filter (fun r => isPosV (get r))).filterMap get

/-- One zero-repair block of `clean_heart_disease_data`: if any cell of the
column is 0, replace every 0 by the median of the column's positive values
(NaN when no positive value exists, as pandas produces). -/
def repairZeros (get : HRow → Val) (set : HRow → Val → HRow) (rows : List HRow) : List HRow :=
  if rows.any (fun r => isZeroV (get r)) then
    let m := medianQ (posVals get rows)
    rows.map (fun r => if isZeroV (get r) then set r m else r)
  else rows

/-- Field update for the `resting bp s` column. -/
def setRestingBp (r : HRow) (v : Val) : HRow := { r with restingBp := v }

/-- Field update for the `cholesterol` column. -/
def setChol (r : HRow) (v : Val) : HRow := { r with chol := v }

/-- `DataPreprocessor.clean_heart_disease_data` (lines 247-288): duplicate
removal first, then the zero repair of `resting bp s`, then of `cholesterol`
(medians computed on the table as it stands at that step). -/
def clean_heart_disease_data (rows : List HRow) : List HRow :=
  repairZeros HRow.chol setChol
    (repairZeros HRow.restingBp setRestingBp (dedupFirst rows))

/-! ## `DataPreprocessor.remove_outliers` (IQR branch) -/

/-- Column `c` of a row table (`List (List ℚ)` of rows). -/
def colVals (rows : List (List ℚ)) (c : ℕ) : List ℚ :=
  rows.map (fun r => r.getD c 0)

/-- The floor of a rational as an integer (`num.fdiv den` is floor division,
so this agrees with the mathematical floor on all of ℚ). -/
def floorQ (q : ℚ) : ℤ := q.num.fdiv q.den

/-- pandas `Series.quantile(q)` with the default linear interpolation:
position `q * (n - 1)` in the sorted values, interpolating between the
bracketing elements. -/
def quantileQ (l : List ℚ) (q : ℚ) : ℚ :=
  let s := l.insertionSort (· ≤ ·)
  let n := s.length
  if n = 0 then 0
  else
    let pos : ℚ := q * ((n : ℚ) - 1)
    let i : ℕ := (floorQ pos).toNat
    let frac : ℚ := pos - (floorQ pos : ℚ)
    let lo := s.getD i 0
    let hi := s.getD (min (i + 1) (n - 1)) 0
    lo + frac * (hi - lo)

/-- One iteration of the IQR loop of `remove_outliers`: bounds
`[Q1 - t*IQR, Q3 + t*IQR]` computed on the surviving rows, then the filter
keeping rows with `lower_bound <= value <= upper_bound` in column `c`. -/
def iqrStep (t : ℚ) (rows : List (List ℚ)) (c : ℕ) : List (List ℚ) :=
  let q1 := quantileQ (colVals rows c) (1 / 4)
  let q3 := quantileQ (colVals rows c) (3 / 4)
  let iqr := q3 - q1
  let lb := q1 - t * iqr
  let ub := q3 + t * iqr
  rows.filter (fun r => decide (lb ≤ r.getD c 0) && decide (r.getD c 0 ≤ ub))

/-- `DataPreprocessor.remove_outliers` (lines 169-221) with `method='iqr'`:
the per-column filters applied sequentially over the listed columns, each
column's quantiles computed over the rows surviving the previous filters. -/
def remove_outliers_iqr (rows : List (List ℚ)) (cols : List ℕ) (t : ℚ) : List (List ℚ) :=
  cols.foldl (iqrStep t) rows

/-! ## `DataPreprocessor.normalize_features` -/

/-- Stand-in for the floating-point square root used by
`StandardScaler` (`scale_ = sqrt(var_)`); exact on perfect squares, which is
all the concrete inputs below need.  Every general theorem about
`normalize_features` in this file is independent of this function's values. -/
def sqrtQ (q : ℚ) : ℚ := Rat.sqrt q

/-- Which scaler class `normalize_features` instantiated. -/
inductive ScalerKind where
  | standard
  | minmax
deriving DecidableEq

/-- Fitted scaler state: the class plus per-column `(offset, scale)` —
`(mean, sqrt var)` for `StandardScaler`, `(min, max - min)` for
`MinMaxScaler`, zero scales replaced by 1 as scikit-learn's
`_handle_zeros_in_scale` does. -/
structure Scaler where
  kind : ScalerKind
  params : List (ℚ × ℚ)
deriving DecidableEq

/-- Arithmetic mean (0 on an empty list, a case the fits below never hit). -/
def meanQ (l : List ℚ) : ℚ :=
  if l.length = 0 then 0 else l.sum / (l.length : ℚ)

/-- Population variance (ddof = 0), as `StandardScaler` computes it. -/
def varQ (l : List ℚ) : ℚ :=
  meanQ (l.map (fun x => (x - meanQ l) ^ 2))

/-- List minimum with default 0 (the fits below never hit the default). -/
def minQ (l : List ℚ) : ℚ := l.foldr min (l.getD 0 0)

/-- List maximum with default 0. -/
def maxQ (l : List ℚ) : ℚ := l.foldr max (l.getD 0 0)

/-- Number of columns of a rectangular row table. -/
def nCols (rows : List (List ℚ)) : ℕ := (rows.getD 0 []).length

/-- `scaler.fit(X_train)`: per-column parameters. -/
def fitScaler (kind : ScalerKind) (rows : List (List ℚ)) : Scaler :=
  { kind := kind,
    params := (List.range (nCols rows)).map (fun j =>
      match kind with
      | .standard =>
        let v := varQ (colVals rows j)
        (meanQ (colVals rows j), if v = 0 then 1 else sqrtQ v)
      | .minmax =>
        let lo := minQ (colVals rows j)
        let hi := maxQ (colVals rows j)
        (lo, if hi - lo = 0 then 1 else hi - lo)) }

/-- `scaler.transform`: `(x - offset) / scale`, columnwise. -/
def transformScaler (sc : Scaler) (rows : List (List ℚ)) : List (List ℚ) :=
  rows.map (fun r => (sc.params.zip r).map (fun pv => (pv.2 - pv.1.1) / pv.1.2))

/-- `DataPreprocessor.normalize_features` (lines 85-129): picks the scaler
class from `method` — `StandardScaler` for "standard", `MinMaxScaler` for
"minmax", and for anything else logs a warning and silently falls back to
`StandardScaler` — then fit-transforms the training matrix and transforms the
optional test matrix with the fitted parameters.  Returns the scaled matrices
and the new `self.scaler` state (overwriting whatever was fitted before). -/
def normalize_features (Xtrain : List (List ℚ)) (Xtest : Option (List (List ℚ)))
    (method : String) :
    (List (List ℚ) × Option (List (List ℚ))) × Scaler :=
  let kind : ScalerKind :=
    if method = "standard" then .standard
    else if method = "minmax" then .minmax
    else .standard
  let sc := fitScaler kind Xtrain
  ((transformScaler sc Xtrain, Xtest.map (transformScaler sc)), sc)

/-! ## `DataPreprocessor.balance_classes` -/

/-- Class count: `(y == c).sum()`. -/
def classCount (y : List ℤ) (c : ℤ) : ℕ := (y.filter (fun v => v = c)).length

/-- The distinct labels of `y` in order of first appearance. -/
def labelsOf (y : List ℤ) : List ℤ := dedupFirst y

/-- SMOTE's synthetic sample: a point on the segment between a minority sample
and a minority neighbor (`a + t * (b - a)` componentwise). -/
def interpolate (a b : List ℚ) (t : ℚ) : List ℚ :=
  a.zipWith (fun x y => x + t * (y - x)) b

/-- The feature rows of `X` whose label in `y` is `c`. -/
def rowsOfClass (X : List (List ℚ)) (y : List ℤ) (c : ℤ) : List (List ℚ) :=
  ((X.zip y).filter (fun p => p.2 = c)).map Prod.fst

/-- `k` synthetic minority rows, each interpolated between a minority sample
and another minority sample standing in for one of its nearest neighbors (the
library draws the neighbor and the interpolation coefficient from the seeded
RNG; the claim below depends only on how many rows are produced). -/
def synthRows (minRows : List (List ℚ)) (k : ℕ) : List (List ℚ) :=
  (List.range k).map (fun i =>
    interpolate (minRows.getD (i % minRows.length) [])
      (minRows.getD ((i + 1) % minRows.length) []) (1 / 2))

/-- Modelled from the spec: `SMOTE(random_state=42).fit_resample(X, y)` is
external library code (imblearn), not in this repository; per the spec it
"synthesizes minority-class samples by interpolating between a minority sample
and one of its k-nearest minority neighbors in feature space until class
counts are equal".  With two classes of counts (a, b) it appends
`max a b - min a b` interpolated minority rows with the minority label. -/
def smote_fit_resample (X : List (List ℚ)) (y : List ℤ) : List (List ℚ) × List ℤ :=
  match labelsOf y with
  | [a, b] =>
    let ca := classCount y a
    let cb := classCount y b
    if ca < cb then
      (X ++ synthRows (rowsOfClass X y a) (cb - ca), y ++ List.replicate (cb - ca) a)
    else
      (X ++ synthRows (rowsOfClass X y b) (ca - cb), y ++ List.replicate (ca - cb) b)
  | _ => (X, y)

/-- `DataPreprocessor.balance_classes` (lines 131-167): runs SMOTE for
`method='smote'`, otherwise warns and returns the data unchanged. -/
def balance_classes (X : List (List ℚ)) (y : List ℤ) (method : String) :
    List (List ℚ) × List ℤ :=
  if method = "smote" then smote_fit_resample X y else (X, y)

/-! ## `DataPreprocessor.apply_onehot_encoding` -/

/-- A column identifier of an encoded frame: either an original column or an
indicator column `get_feature_names_out` derives from a categorical column and
one of its learned categories ("col_cat"; the pair is kept structured instead
of rendered to a string). -/
inductive ColName where
  | raw (s : String)
  | enc (s : String) (cat : ℚ)
deriving DecidableEq

/-- A pandas DataFrame for the encoder: named columns plus rows of cells
addressed by column position. -/
structure Df where
  cols : List ColName
  rows : List (List ℚ)
deriving DecidableEq

/-- Cell of `row` under the original column named `c` (0 when the frame lacks
the column — the source would raise a `KeyError` there; the claims below only
use frames that carry their categorical columns). -/
def dfCell (df : Df) (row : List ℚ) (c : String) : ℚ :=
  match df.cols.indexOf? (ColName.raw c) with
  | some i => row.getD i 0
  | none => 0

/-- Fitted `OneHotEncoder` state: for each categorical column, in the order
the columns were passed, its learned categories sorted ascending
(`categories_`). -/
abbrev Encoder : Type := List (String × List ℚ)

/-- Sorted distinct values, as `OneHotEncoder.fit` learns categories. -/
def sortedUnique (l : List ℚ) : List ℚ :=
  (dedupFirst l).insertionSort (· ≤ ·)

/-- `OneHotEncoder(...).fit(df[categorical_cols])`. -/
def fitEncoder (df : Df) (cats : List String) : Encoder :=
  cats.map (fun c => (c, sortedUnique (df.rows.map (fun r => dfCell df r c))))

/-- The indicator block of one categorical column for one cell value: 1 at the
matching category, 0 elsewhere — hence all zeros for a value outside the
learned categories (`handle_unknown='ignore'`). -/
def indicator (cs : List ℚ) (v : ℚ) : List ℚ :=
  cs.map (fun cat => if v = cat then 1 else 0)

/-- `encoder.transform` of one row: the indicator blocks of the categorical
columns, concatenated in fit order. -/
def encodeRow (enc : Encoder) (df : Df) (row : List ℚ) : List ℚ :=
  enc.flatMap (fun p => indicator p.2 (dfCell df row p.1))

/-- `encoder.get_feature_names_out(categorical_cols)`: one indicator column
per learned category, grouped by categorical column in fit order. -/
def encColNames (enc : Encoder) : List ColName :=
  enc.flatMap (fun p => p.2.map (fun q => ColName.enc p.1 q))

/-- `df.drop(columns=categorical_cols)` on the column list. -/
def dropCatCols (cols : List ColName) (cats : List String) : List ColName :=
  cols.filter (fun c => match c with
    | .raw s => decide (s ∉ cats)
    | .enc _ _ => true)

/-- The cells of `row` surviving `df.drop(columns=categorical_cols)`. -/
def keptCells (df : Df) (cats : List String) (row : List ℚ) : List ℚ :=
  ((df.cols.zip row).filter (fun p => match p.1 with
    | ColName.raw s => decide (s ∉ cats)
    | ColName.enc _ _ => true)).map Prod.snd

/-- The preprocessor state relevant to encoding: `self.encoder`. -/
structure PrepState where
  encoder : Option Encoder

/-- The default `categorical_cols` of `apply_onehot_encoding`. -/
def defaultCats : List String := ["chest pain type", "resting ecg", "ST slope"]

/-- `DataPreprocessor.apply_onehot_encoding` (lines 290-337): with `fit=true`
or no encoder yet, fits a fresh `OneHotEncoder(drop=None, handle_unknown=
'ignore')` on the table's categorical columns; otherwise transforms with the
stored encoder.  The result drops the original categorical columns and
appends the indicator columns named by `get_feature_names_out`; the fitted
encoder is stored back on the preprocessor. -/
def apply_onehot_encoding (st : PrepState) (df : Df)
    (categoricalCols : Option (List String)) (fit : Bool) : Df × PrepState :=
  let cats := categoricalCols.getD defaultCats
  let enc : Encoder :=
    match st.encoder with
    | none => fitEncoder df cats
    | some e => if fit then fitEncoder df cats else e
  ({ cols := dropCatCols df.cols cats ++ encColNames enc,
     rows := df.rows.map (fun r => keptCells df cats r ++ encodeRow enc df r) },
   { encoder := some enc })

/-- The serving frame as a one-row DataFrame, for comparing the serving-time
input against the training-time transform. -/
def toDf (fr : List (String × ℚ)) : Df :=
  { cols := fr.map (fun kv => ColName.raw kv.1), rows := [fr.map Prod.snd] }

/-! ## Concrete fixtures -/

/-- The example record of `src/api/models.py` (also the spec's §8 scenario). -/
def examplePatient : PatientData :=
  { age := 54, sex := 1, chest_pain_type := 3, resting_bp := 150,
    cholesterol := 195, fasting_bs := 0, resting_ecg := 0, max_hr := 122,
    exercise_angina := 0, oldpeak := 0, st_slope := 1 }

/-- A deterministic stub model without `predict_proba`. -/
def stubModel : MLModel := { predictFn := fun _ => 1, probaFn := none }

/-- A cache already holding `stubModel` under the default model name. -/
def rfCache : CacheState :=
  { cachedModel := some stubModel, cachedName := some "random_forest" }

/-- A registry with no models at all. -/
def emptyRegistry : Registry := fun _ => none

/-- A registry holding only `stubModel` under the name "knn". -/
def knnRegistry : Registry :=
  fun n => if n = "knn" then some stubModel else none

/-- A probe model that reports whether the frame it receives still carries the
raw categorical column `chest pain type` with the raw value 3. -/
def probeModel : MLModel :=
  { predictFn := fun df => if (df.lookup "chest pain type").getD 0 = 3 then 1 else 0,
    probaFn := none }

/-- A registry answering every name with `probeModel`. -/
def probeRegistry : Registry := fun _ => some probeModel

/-- A two-row fit table: categories 1 and 2 observed for `chest pain type`. -/
def fitDf : Df :=
  { cols := [ColName.raw "chest pain type", ColName.raw "x"],
    rows := [[1, 10], [2, 20]] }

/-- A serving-time table whose `chest pain type` value 3 was never observed at
fit time. -/
def serveDf : Df :=
  { cols := [ColName.raw "chest pain type", ColName.raw "x"],
    rows := [[3, 30]] }

/-- The preprocessor state after fitting the encoder on `fitDf`. -/
def fittedState : PrepState :=
  (apply_onehot_encoding { encoder := none } fitDf (some ["chest pain type"]) true).2

/-! ## Serving-path lemmas -/

/-- On a cache miss (empty cache or a different cached name) with the model in
the registry, `load_model` fetches once, returns the fetched model and
repopulates the cache. -/
theorem load_model_cache_miss (registry : Registry) (mn : Option String)
    (st : CacheState) (m : MLModel)
    (hreg : registry (mn.getD DEFAULT_MODEL) = some m)
    (hmiss : st.cachedModel = none ∨ st.cachedName ≠ some (mn.getD DEFAULT_MODEL)) :
    load_model registry mn st
      = (.ok m, { cachedModel := some m, cachedName := some (mn.getD DEFAULT_MODEL) }, 1) := by
  rcases hmc : st.cachedModel with _ | m₀
  · simp only [load_model, hmc, hreg]
  · rcases hmiss with h | h
    · rw [hmc] at h; exact absurd h (by simp)
    · simp only [load_model, hmc, if_neg h, hreg]

/-- On a cache hit (same resolved name, model present), `load_model` returns
the cached model, leaves the cache alone and performs no registry fetch. -/
theorem load_model_cache_hit (registry : Registry) (mn : Option String)
    (st : CacheState) (m : MLModel)
    (hm : st.cachedModel = some m)
    (hn : st.cachedName = some (mn.getD DEFAULT_MODEL)) :
    load_model registry mn st = (.ok m, st, 0) := by
  simp only [load_model, hm, if_pos hn]

/-- On a cache miss for a name the registry lacks, `load_model` raises the 404
and leaves the cache untouched. -/
theorem load_model_not_found (registry : Registry) (mn : Option String)
    (st : CacheState)
    (hreg : registry (mn.getD DEFAULT_MODEL) = none)
    (hmiss : st.cachedModel = none ∨ st.cachedName ≠ some (mn.getD DEFAULT_MODEL)) :
    load_model registry mn st
      = (.error (.httpError 404 (notFoundMsg (mn.getD DEFAULT_MODEL))), st, 1) := by
  rcases hmc : st.cachedModel with _ | m₀
  · simp only [load_model, hmc, hreg]
  · rcases hmiss with h | h
    · rw [hmc] at h; exact absurd h (by simp)
    · simp only [load_model, hmc, if_neg h, hreg]

/-- `predict` under a successful model load. -/
theorem predictEndpoint_ok (registry : Registry) (p : PatientData)
    (mn : Option String) (st st₂ : CacheState) (m : MLModel) (n : ℕ)
    (h : load_model registry mn st = (.ok m, st₂, n)) :
    predictEndpoint registry p mn st
      = (.ok { prediction := m.predictFn (servingFrame p),
               probability := probOf m (servingFrame p),
               model_name := mn.getD DEFAULT_MODEL, model_version := "1" }, st₂, n) := by
  unfold predictEndpoint
  rw [h]

/-- `predict` under a failed model load: the exception is re-raised as a 500
embedding the original message. -/
theorem predictEndpoint_err (registry : Registry) (p : PatientData)
    (mn : Option String) (st st₂ : CacheState) (e : ApiError) (n : ℕ)
    (h : load_model registry mn st = (.error e, st₂, n)) :
    predictEndpoint registry p mn st
      = (.error (.httpError 500 ("Erro na predição: " ++ errMsg e)), st₂, n) := by
  unfold predictEndpoint
  rw [h]

/-! ## Claim C2 -/

/-- Claim C2, counterexample: "xgboost" is neither a registered identifier nor
an alias, yet `get_model` does not fail with a typed error — it returns
Python's `None` (here `Option.none`), a non-model value. -/
theorem C2_counterexample : get_model "xgboost" [] = none := rfl

/-- Claim C2, amended: for every name whose alias resolution is not a key of
`models_dict`, `get_model` logs an error and returns `None` (a sentinel
non-model value the caller must check), rather than raising an
`UnknownAlgorithmError`. -/
theorem C2_unknown_name_returns_none (name : String) (kwargs : List (String × PVal))
    (h : models_dict ((model_aliases.lookup name).getD name) = none) :
    get_model name kwargs = none := by
  unfold get_model
  rw [h]

/-- Witness for C2 at the concrete unregistered name "xgboost". -/
theorem C2_witness :
    models_dict ((model_aliases.lookup "xgboost").getD "xgboost") = none
      ∧ get_model "xgboost" [] = none :=
  ⟨rfl, C2_unknown_name_returns_none "xgboost" [] rfl⟩

/-! ## Claim C3 -/

/-- Claim C3, counterexample: the registry holds no model at all, yet a
predict request for "random_forest" — which happens to be cached — succeeds
from the cache instead of failing with a model-not-found error. -/
theorem C3_counterexample :
    (predictEndpoint emptyRegistry examplePatient (some "random_forest") rfCache).1
      = .ok { prediction := 1, probability := 1,
              model_name := "random_forest", model_version := "1" } := rfl

/-- Claim C3, amended: for every predict request whose (default-resolved)
model name is absent from the registry, provided the cache is empty or caches
a different name, the call fails — `load_model` raises a 404 model-not-found
`HTTPException`, which `predict`'s catch-all re-raises as a 500 error
embedding that message — and the cache (cached model and cached name) is
exactly what it was before the call.  (If the cache already holds the
requested name, the call instead succeeds from the cache without consulting
the registry.) -/
theorem C3_missing_model_fails_cache_unchanged (registry : Registry)
    (p : PatientData) (mn : Option String) (st : CacheState)
    (hreg : registry (mn.getD DEFAULT_MODEL) = none)
    (hmiss : st.cachedModel = none ∨ st.cachedName ≠ some (mn.getD DEFAULT_MODEL)) :
    (predictEndpoint registry p mn st).1
        = .error (.httpError 500 ("Erro na predição: "
            ++ errMsg (.httpError 404 (notFoundMsg (mn.getD DEFAULT_MODEL)))))
      ∧ (predictEndpoint registry p mn st).2.1 = st := by
  rw [predictEndpoint_err registry p mn st st
        (.httpError 404 (notFoundMsg (mn.getD DEFAULT_MODEL))) 1
        (load_model_not_found registry mn st hreg hmiss)]
  exact ⟨rfl, rfl⟩

/-- Witness for C3: a request for the absent model "svm" against an empty
cache. -/
theorem C3_witness :
    (predictEndpoint emptyRegistry examplePatient (some "svm") emptyCache).1
        = .error (.httpError 500 ("Erro na predição: "
            ++ errMsg (.httpError 404 (notFoundMsg ((some "svm").getD DEFAULT_MODEL)))))
      ∧ (predictEndpoint emptyRegistry examplePatient (some "svm") emptyCache).2.1
          = emptyCache :=
  C3_missing_model_fails_cache_unchanged emptyRegistry examplePatient (some "svm")
    emptyCache rfl (Or.inl rfl)

/-! ## Claim C4 -/

/-- Claim C4: two sequential predict calls resolving to the same model name
issue exactly one registry load — the first call (a cache miss) fetches once
and populates the cache, the second performs zero fetches and leaves the cache
as the first call left it. -/
theorem C4_two_calls_single_load (registry : Registry) (p₁ p₂ : PatientData)
    (mn : Option String) (st : CacheState) (m : MLModel)
    (hreg : registry (mn.getD DEFAULT_MODEL) = some m)
    (hmiss : st.cachedModel = none ∨ st.cachedName ≠ some (mn.getD DEFAULT_MODEL)) :
    (predictEndpoint registry p₁ mn st).2.2 = 1
    ∧ (predictEndpoint registry p₁ mn st).2.1.cachedName
        = some (mn.getD DEFAULT_MODEL)
    ∧ (predictEndpoint registry p₂ mn (predictEndpoint registry p₁ mn st).2.1).2.2 = 0
    ∧ (predictEndpoint registry p₂ mn (predictEndpoint registry p₁ mn st).2.1).2.1
        = (predictEndpoint registry p₁ mn st).2.1 := by
  have h₁ := predictEndpoint_ok registry p₁ mn st
    { cachedModel := some m, cachedName := some (mn.getD DEFAULT_MODEL) } m 1
    (load_model_cache_miss registry mn st m hreg hmiss)
  have h₂ := predictEndpoint_ok registry p₂ mn
    { cachedModel := some m, cachedName := some (mn.getD DEFAULT_MODEL) }
    { cachedModel := some m, cachedName := some (mn.getD DEFAULT_MODEL) } m 0
    (load_model_cache_hit registry mn
      { cachedModel := some m, cachedName := some (mn.getD DEFAULT_MODEL) } m rfl rfl)
  rw [h₁]
  exact ⟨rfl, rfl, by rw [h₂], by rw [h₂]⟩

/-- Witness for C4: two calls for "knn" against `knnRegistry` from the empty
cache. -/
theorem C4_witness :
    (predictEndpoint knnRegistry examplePatient (some "knn") emptyCache).2.2 = 1
    ∧ (predictEndpoint knnRegistry examplePatient (some "knn") emptyCache).2.1.cachedName
        = some ((some "knn").getD DEFAULT_MODEL)
    ∧ (predictEndpoint knnRegistry examplePatient (some "knn")
        (predictEndpoint knnRegistry examplePatient (some "knn") emptyCache).2.1).2.2 = 0
    ∧ (predictEndpoint knnRegistry examplePatient (some "knn")
        (predictEndpoint knnRegistry examplePatient (some "knn") emptyCache).2.1).2.1
        = (predictEndpoint knnRegistry examplePatient (some "knn") emptyCache).2.1 :=
  C4_two_calls_single_load knnRegistry examplePatient examplePatient (some "knn")
    emptyCache stubModel rfl (Or.inl rfl)

/-! ## Claim C9 -/

/-- Claim C9: when the loaded model exposes no `predict_proba`, the predict
call still succeeds and the response's probability is the predicted label cast
to a float — hence exactly 0 or 1 whenever the label is 0 or 1. -/
theorem C9_probability_is_label_without_proba (registry : Registry)
    (p : PatientData) (mn : Option String) (st : CacheState) (m : MLModel)
    (hreg : registry (mn.getD DEFAULT_MODEL) = some m)
    (hmiss : st.cachedModel = none ∨ st.cachedName ≠ some (mn.getD DEFAULT_MODEL))
    (hnp : m.probaFn = none) :
    (predictEndpoint registry p mn st).1
        = .ok { prediction := m.predictFn (servingFrame p),
                probability := ((m.predictFn (servingFrame p) : ℤ) : ℚ),
                model_name := mn.getD DEFAULT_MODEL, model_version := "1" }
      ∧ (m.predictFn (servingFrame p) = 0 ∨ m.predictFn (servingFrame p) = 1 →
          ((m.predictFn (servingFrame p) : ℤ) : ℚ) = 0
          ∨ ((m.predictFn (servingFrame p) : ℤ) : ℚ) = 1) := by
  constructor
  · rw [predictEndpoint_ok registry p mn st
        { cachedModel := some m, cachedName := some (mn.getD DEFAULT_MODEL) } m 1
        (load_model_cache_miss registry mn st m hreg hmiss)]
    unfold probOf
    rw [hnp]
  · rintro (h | h) <;> rw [h] <;> simp

/-- Witness for C9: `stubModel` (no `predict_proba`) served as "knn". -/
theorem C9_witness :
    (predictEndpoint knnRegistry examplePatient (some "knn") emptyCache).1
        = .ok { prediction := stubModel.predictFn (servingFrame examplePatient),
                probability := ((stubModel.predictFn (servingFrame examplePatient) : ℤ) : ℚ),
                model_name := (some "knn").getD DEFAULT_MODEL, model_version := "1" }
      ∧ (stubModel.predictFn (servingFrame examplePatient) = 0
          ∨ stubModel.predictFn (servingFrame examplePatient) = 1 →
          ((stubModel.predictFn (servingFrame examplePatient) : ℤ) : ℚ) = 0
          ∨ ((stubModel.predictFn (servingFrame examplePatient) : ℤ) : ℚ) = 1) :=
  C9_probability_is_label_without_proba knnRegistry examplePatient (some "knn")
    emptyCache stubModel rfl (Or.inl rfl) rfl

/-! ## Claim C10 -/

unseal Rat.add Rat.sub Rat.mul Rat.inv

/-- Claim C10, counterexample: with the unrecognized method "robust",
`normalize_features` does fall back to standard scaling, but on the already
standardized matrix [[-1], [1]] (mean 0, population variance 1) that fallback
returns the input unchanged — refuting the claim's "does not return the input
unchanged". -/
theorem C10_counterexample :
    (normalize_features [[-1], [1]] none "robust").1.1 = [[-1], [1]]
    ∧ ("robust" : String) ≠ "standard" ∧ ("robust" : String) ≠ "minmax" := by
  refine ⟨by decide, by decide, by decide⟩

/-- Claim C10, amended: for every method string other than "standard" and
"minmax", `normalize_features` does not fail and silently falls back to
standard scaling — scaled output and stored scaler state are identical to a
call with method="standard" (though an input that is already standardized is a
fixed point, so the output can coincide with the input). -/
theorem C10_unknown_method_is_standard (method : String)
    (X : List (List ℚ)) (Xtest : Option (List (List ℚ)))
    (h₁ : method ≠ "standard") (h₂ : method ≠ "minmax") :
    normalize_features X Xtest method = normalize_features X Xtest "standard" := by
  simp only [normalize_features, if_neg h₁, if_neg h₂, if_pos rfl, eq_self_iff_true, if_true]

/-- Witness for C10 at method "robust" on a concrete matrix. -/
theorem C10_witness :
    ("robust" : String) ≠ "standard" ∧ ("robust" : String) ≠ "minmax"
    ∧ normalize_features [[2], [4]] none "robust"
        = normalize_features [[2], [4]] none "standard" :=
  ⟨by decide, by decide,
    C10_unknown_method_is_standard "robust" [[2], [4]] none (by decide) (by decide)⟩

/-! ## Claim C7 -/

/-- Claim C7: `remove_outliers` with the IQR method applies the per-column
bound filter sequentially — for a single listed column it is exactly the
filter by that column's `[Q1 - t*IQR, Q3 + t*IQR]` computed on the incoming
rows — and on the single-column dataset [1,2,2,3,3,3,4,4,100] with threshold
1.5 it removes exactly the row holding 100. -/
theorem C7_iqr_scenario :
    (∀ (rows : List (List ℚ)) (c : ℕ) (t : ℚ),
        remove_outliers_iqr rows [c] t = iqrStep t rows c)
    ∧ remove_outliers_iqr
        [[1], [2], [2], [3], [3], [3], [4], [4], [100]] [0] (3 / 2)
        = [[1], [2], [2], [3], [3], [3], [4], [4]] :=
  ⟨fun _ _ _ => rfl, by decide⟩

/-! ## Claim C6 -/

/-- Elements produced by `dedupFirstAux` come from the input list and never
from the already-seen accumulator. -/
theorem dedupFirstAux_mem {α : Type} [DecidableEq α] (seen l : List α) :
    ∀ x ∈ dedupFirstAux seen l, x ∈ l ∧ x ∉ seen := by
  induction l generalizing seen with
  | nil => intro x hx; simp [dedupFirstAux] at hx
  | cons r rs ih =>
    intro x hx
    simp only [dedupFirstAux] at hx
    by_cases hr : r ∈ seen
    · rw [if_pos hr] at hx
      exact ⟨List.mem_cons_of_mem _ (ih seen x hx).1, (ih seen x hx).2⟩
    · rw [if_neg hr] at hx
      rcases List.mem_cons.mp hx with hx | hx
      · subst hx; exact ⟨List.mem_cons_self _ _, hr⟩
      · have h := ih (r :: seen) x hx
        exact ⟨List.mem_cons_of_mem _ h.1,
          fun hs => h.2 (List.mem_cons_of_mem _ hs)⟩

/-- `dedupFirstAux` emits each element at most once. -/
theorem dedupFirstAux_nodup {α : Type} [DecidableEq α] (seen l : List α) :
    (dedupFirstAux seen l).Nodup := by
  induction l generalizing seen with
  | nil => simp [dedupFirstAux]
  | cons r rs ih =>
    simp only [dedupFirstAux]
    by_cases hr : r ∈ seen
    · rw [if_pos hr]; exact ih seen
    · rw [if_neg hr]
      refine List.nodup_cons.mpr ⟨?_, ih (r :: seen)⟩
      intro hmem
      exact (dedupFirstAux_mem (r :: seen) rs r hmem).2 (List.mem_cons_self r seen)

/-- `dedupFirst` keeps only elements of the input. -/
theorem dedupFirst_subset {α : Type} [DecidableEq α] {l : List α} {x : α}
    (h : x ∈ dedupFirst l) : x ∈ l :=
  (dedupFirstAux_mem [] l x h).1

/-- `dedupFirst` has no duplicates. -/
theorem dedupFirst_nodup {α : Type} [DecidableEq α] (l : List α) :
    (dedupFirst l).Nodup :=
  dedupFirstAux_nodup [] l

/-- Class counts add over list append. -/
theorem classCount_append (y z : List ℤ) (c : ℤ) :
    classCount (y ++ z) c = classCount y c + classCount z c := by
  simp [classCount, List.filter_append]

/-- A replicated label counts as its full length for itself. -/
theorem classCount_replicate_self (k : ℕ) (c : ℤ) :
    classCount (List.replicate k c) c = k := by
  induction k with
  | zero => rfl
  | succ n ih => simp [classCount, List.replicate_succ] at ih ⊢

/-- A replicated label contributes nothing to a different label's count. -/
theorem classCount_replicate_ne (k : ℕ) (c d : ℤ) (h : c ≠ d) :
    classCount (List.replicate k c) d = 0 := by
  induction k with
  | zero => rfl
  | succ n ih => simp only [classCount, List.replicate_succ, List.filter_cons] at ih ⊢; simp [h, ih]

/-- Claim C6: for every feature/label input with two non-empty classes of
counts (a, b), `balance_classes` with the SMOTE method returns labels whose
class counts are exactly (max a b, max a b): the minority class is grown by
interpolated synthetic rows until the counts are equal. -/
theorem C6_smote_equalizes_counts (X : List (List ℚ)) (y : List ℤ) (a b : ℤ)
    (hlab : labelsOf y = [a, b])
    (_ha : 0 < classCount y a) (_hb : 0 < classCount y b) :
    classCount (balance_classes X y "smote").2 a
        = max (classCount y a) (classCount y b)
    ∧ classCount (balance_classes X y "smote").2 b
        = max (classCount y a) (classCount y b) := by
  have hne : a ≠ b := by
    have hnd : ([a, b] : List ℤ).Nodup := hlab ▸ dedupFirst_nodup y
    simp only [List.nodup_cons, List.mem_singleton] at hnd
    exact hnd.1
  have hbc : balance_classes X y "smote" = smote_fit_resample X y := by
    simp [balance_classes]
  rw [hbc]
  simp only [smote_fit_resample, hlab]
  by_cases hlt : classCount y a < classCount y b
  · rw [if_pos hlt]
    constructor
    · rw [classCount_append, classCount_replicate_self]
      omega
    · rw [classCount_append, classCount_replicate_ne _ _ _ hne]
      omega
  · rw [if_neg hlt]
    constructor
    · rw [classCount_append, classCount_replicate_ne _ _ _ (Ne.symm hne)]
      omega
    · rw [classCount_append, classCount_replicate_self]
      omega

/-- Witness for C6: labels [0, 1, 1] (counts 1 and 2) are balanced to counts
(2, 2). -/
theorem C6_witness :
    classCount (balance_classes [[0], [10], [20]] [0, 1, 1] "smote").2 0
        = max (classCount [0, 1, 1] 0) (classCount [0, 1, 1] 1)
    ∧ classCount (balance_classes [[0], [10], [20]] [0, 1, 1] "smote").2 1
        = max (classCount [0, 1, 1] 0) (classCount [0, 1, 1] 1) :=
  C6_smote_equalizes_counts [[0], [10], [20]] [0, 1, 1] 0 1 (by decide)
    (by decide) (by decide)

/-! ## Claim C8 -/

/-- An indicator block over a value outside the category list is all zeros. -/
theorem indicator_of_not_mem (cs : List ℚ) (v : ℚ) (hv : v ∉ cs) :
    indicator cs v = List.replicate cs.length 0 := by
  induction cs with
  | nil => rfl
  | cons x xs ih =>
    have hvx : v ≠ x := fun h => hv (h ▸ List.mem_cons_self x xs)
    have hvs : v ∉ xs := fun h => hv (List.mem_cons_of_mem x h)
    simp only [indicator, List.map_cons, List.length_cons, List.replicate_succ,
      if_neg hvx]
    exact congrArg (List.cons 0) (ih hvs)

/-- Claim C8: with a previously fitted encoder, `apply_onehot_encoding` with
`fit=false` never refits: it reuses exactly the stored categories and column
order (output columns are the non-categorical columns followed by the fitted
indicator columns, the stored encoder state is unchanged), and any row whose
categorical cell holds a value not among the learned categories gets an
all-zero indicator block for that column.  The function is total — unseen
categories never raise. -/
theorem C8_unseen_category_zero_row (st : PrepState) (enc : Encoder) (df : Df)
    (cats : List String) (c : String) (cs : List ℚ) (row : List ℚ)
    (hst : st.encoder = some enc)
    (hc : (c, cs) ∈ enc)
    (hunseen : dfCell df row c ∉ cs) :
    indicator cs (dfCell df row c) = List.replicate cs.length 0
    ∧ (apply_onehot_encoding st df (some cats) false).1.cols
        = dropCatCols df.cols cats ++ encColNames enc
    ∧ (apply_onehot_encoding st df (some cats) false).1.rows
        = df.rows.map (fun r => keptCells df cats r ++ encodeRow enc df r)
    ∧ (apply_onehot_encoding st df (some cats) false).2.encoder = some enc := by
  have hmem : (c, cs) ∈ enc := hc
  refine ⟨indicator_of_not_mem cs _ hunseen, ?_, ?_, ?_⟩ <;>
    simp [apply_onehot_encoding, hst]

/-- Witness for C8: the encoder fitted on `fitDf` maps the unseen category 3
to the all-zero indicator block. -/
theorem C8_witness :
    indicator [1, 2] (dfCell serveDf [3, 30] "chest pain type")
        = List.replicate ([1, 2] : List ℚ).length 0
    ∧ (apply_onehot_encoding fittedState serveDf (some ["chest pain type"]) false).1.cols
        = dropCatCols serveDf.cols ["chest pain type"]
          ++ encColNames [("chest pain type", [1, 2])]
    ∧ (apply_onehot_encoding fittedState serveDf (some ["chest pain type"]) false).1.rows
        = serveDf.rows.map (fun r =>
            keptCells serveDf ["chest pain type"] r
            ++ encodeRow [("chest pain type", [1, 2])] serveDf r)
    ∧ (apply_onehot_encoding fittedState serveDf (some ["chest pain type"]) false).2.encoder
        = some [("chest pain type", [1, 2])] :=
  C8_unseen_category_zero_row fittedState [("chest pain type", [1, 2])] serveDf
    ["chest pain type"] "chest pain type" [1, 2] [3, 30]
    (by decide) (by decide) (by decide)

/-! ## Claim C5 -/

/-- Every value selected by the `> 0` mask is strictly positive. -/
theorem posVals_pos (get : HRow → Val) (rows : List HRow) :
    ∀ x ∈ posVals get rows, 0 < x := by
  intro x hx
  unfold posVals at hx
  rcases List.mem_filterMap.mp hx with ⟨r, hr, hget⟩
  have hp : isPosV (get r) = true := (List.mem_filter.mp hr).2
  cases hg : get r with
  | none => rw [hg] at hp; simp [isPosV] at hp
  | some q =>
    rw [hg] at hget hp
    simp only [isPosV, decide_eq_true_eq] at hp
    cases hget
    exact hp

/-- The median of a list of strictly positive rationals, when defined, is
strictly positive (it is an element of the sorted list or the average of two
of them). -/
theorem medianQ_pos (l : List ℚ) (hl : ∀ x ∈ l, 0 < x) (m : ℚ)
    (hm : medianQ l = some m) : 0 < m := by
  have hperm := List.perm_insertionSort (· ≤ ·) l
  have hs : ∀ x ∈ l.insertionSort (· ≤ ·), 0 < x :=
    fun x hx => hl x (hperm.mem_iff.mp hx)
  simp only [medianQ] at hm
  split at hm
  · exact absurd hm (by simp)
  · next h0 =>
    split at hm
    · next =>
      rw [Option.some.injEq] at hm
      subst hm
      have hidx : (l.insertionSort (· ≤ ·)).length / 2
          < (l.insertionSort (· ≤ ·)).length :=
        Nat.div_lt_self (Nat.pos_of_ne_zero h0) one_lt_two
      rw [List.getD_eq_getElem _ _ hidx]
      exact hs _ (List.getElem_mem hidx)
    · next =>
      rw [Option.some.injEq] at hm
      subst hm
      have hidx₂ : (l.insertionSort (· ≤ ·)).length / 2
          < (l.insertionSort (· ≤ ·)).length :=
        Nat.div_lt_self (Nat.pos_of_ne_zero h0) one_lt_two
      have hidx₁ : (l.insertionSort (· ≤ ·)).length / 2 - 1
          < (l.insertionSort (· ≤ ·)).length := by omega
      rw [List.getD_eq_getElem _ _ hidx₁, List.getD_eq_getElem _ _ hidx₂]
      have ha := hs _ (List.getElem_mem hidx₁)
      have hb := hs _ (List.getElem_mem hidx₂)
      exact div_pos (add_pos ha hb) (by norm_num)

/-- The replacement value of a zero-repair step is never the cell 0: it is
either NaN (empty positive support) or a strictly positive median. -/
theorem isZeroV_medianQ (get : HRow → Val) (rows : List HRow) :
    isZeroV (medianQ (posVals get rows)) = false := by
  cases hm : medianQ (posVals get rows) with
  | none => rfl
  | some m =>
    have hpos : 0 < m := medianQ_pos _ (posVals_pos get rows) m hm
    simp only [isZeroV, decide_eq_false_iff_not]
    exact ne_of_gt hpos

/-- After one zero-repair step on a column, no cell of that column is 0. -/
theorem repairZeros_no_zero (get : HRow → Val) (upd : HRow → Val → HRow)
    (hupd : ∀ r v, get (upd r v) = v) (rows : List HRow) :
    ∀ r ∈ repairZeros get upd rows, isZeroV (get r) = false := by
  intro r hr
  unfold repairZeros at hr
  by_cases hg : rows.any (fun r => isZeroV (get r)) = true
  · rw [if_pos hg] at hr
    rcases List.mem_map.mp hr with ⟨r₀, _hr₀, heq⟩
    by_cases hz : isZeroV (get r₀) = true
    · rw [if_pos hz] at heq
      rw [← heq, hupd]
      exact isZeroV_medianQ get rows
    · rw [if_neg hz] at heq
      rw [← heq]
      exact Bool.not_eq_true _ ▸ hz
  · rw [if_neg hg] at hr
    have hall := List.any_eq_false.mp (Bool.not_eq_true _ ▸ hg) r hr
    exact Bool.not_eq_true _ ▸ hall

/-- A zero-repair step on one column leaves every other field of every row
unchanged (rows are mapped through the column's setter only). -/
theorem repairZeros_preserve {β : Type} (π : HRow → β) (get : HRow → Val)
    (upd : HRow → Val → HRow) (hupd : ∀ r v, π (upd r v) = π r)
    (P : β → Prop) (rows : List HRow) (h : ∀ r ∈ rows, P (π r)) :
    ∀ r ∈ repairZeros get upd rows, P (π r) := by
  intro r hr
  unfold repairZeros at hr
  by_cases hg : rows.any (fun r => isZeroV (get r)) = true
  · rw [if_pos hg] at hr
    rcases List.mem_map.mp hr with ⟨r₀, hr₀, heq⟩
    by_cases hz : isZeroV (get r₀) = true
    · rw [if_pos hz] at heq
      rw [← heq, hupd]
      exact h r₀ hr₀
    · rw [if_neg hz] at heq
      rw [← heq]
      exact h r₀ hr₀
  · rw [if_neg hg] at hr
    exact h r hr

/-- A zero-repair step is the identity on a table whose column has no zeros. -/
theorem repairZeros_noop (get : HRow → Val) (upd : HRow → Val → HRow)
    (rows : List HRow) (h : ∀ r ∈ rows, isZeroV (get r) = false) :
    repairZeros get upd rows = rows := by
  unfold repairZeros
  rw [if_neg]
  simp only [List.any_eq_true, not_exists, not_and]
  intro r hr
  simp [h r hr]

/-- Claim C5, counterexample: on the two distinct rows (resting bp 0, chol
200, rest 1) and (resting bp 100, chol 200, rest 1), `clean` replaces the zero
by the median 100 and thereby makes the rows identical; a second `clean`
removes the duplicate the first one created, so `clean (clean t) ≠ clean t`. -/
theorem C5_counterexample :
    clean_heart_disease_data (clean_heart_disease_data
        [{ restingBp := some 0, chol := some 200, other := [some 1] },
         { restingBp := some 100, chol := some 200, other := [some 1] }])
      ≠ clean_heart_disease_data
        [{ restingBp := some 0, chol := some 200, other := [some 1] },
         { restingBp := some 100, chol := some 200, other := [some 1] }] := by
  decide

/-- Claim C5, amended: `clean` is not idempotent in general.  The second
application performs no further zero-value replacements (a cleaned table has
no zeros left in the repaired columns), but it may remove duplicate rows that
the first application's median replacement created: for every table,
`clean (clean t)` equals exactly the duplicate-removal of `clean t`. -/
theorem C5_clean_twice_is_dedup (rows : List HRow) :
    clean_heart_disease_data (clean_heart_disease_data rows)
      = dedupFirst (clean_heart_disease_data rows) := by
  have hrb : ∀ r ∈ clean_heart_disease_data rows, isZeroV r.restingBp = false := by
    intro r hr
    exact repairZeros_preserve HRow.restingBp HRow.chol setChol (fun _ _ => rfl)
      (fun b => isZeroV b = false) _
      (repairZeros_no_zero HRow.restingBp setRestingBp (fun _ _ => rfl) _) r hr
  have hch : ∀ r ∈ clean_heart_disease_data rows, isZeroV r.chol = false := by
    intro r hr
    exact repairZeros_no_zero HRow.chol setChol (fun _ _ => rfl) _ r hr
  show repairZeros HRow.chol setChol
      (repairZeros HRow.restingBp setRestingBp
        (dedupFirst (clean_heart_disease_data rows)))
    = dedupFirst (clean_heart_disease_data rows)
  rw [repairZeros_noop HRow.restingBp setRestingBp _
        (fun r hr => hrb r (dedupFirst_subset hr)),
      repairZeros_noop HRow.chol setChol _
        (fun r hr => hch r (dedupFirst_subset hr))]

/-! ## Claim C1 -/

/-- Indicator columns produced by `get_feature_names_out` are never raw
columns: the encoded frame no longer carries the original categorical column. -/
theorem raw_not_mem_encColNames (enc : Encoder) (s : String) :
    ColName.raw s ∉ encColNames enc := by
  intro h
  rcases List.mem_flatMap.mp h with ⟨p, _hp, hmem⟩
  rcases List.mem_map.mp hmem with ⟨q, _hq, heq⟩
  exact ColName.noConfusion heq

/-- Claim C1 (code bug): the serving path applies only the column renaming,
never the fitted one-hot/scaling transform — the preprocessing step is an
unexecuted TODO at `src/api/main.py:196`.  Concretely, on the spec's example
record: (1) a probe model receiving the frame `predict` builds still sees the
raw column "chest pain type" with its raw value 3; (2) that raw column/value
pair is in the serving frame; (3) yet for every preprocessor state, the
training-time transform of that same frame drops the raw "chest pain type"
column (replacing it with indicator columns), so the frame the model receives
at serving time can never equal the training-time feature frame. -/
theorem C1_serving_skips_fitted_transform :
    (predictEndpoint probeRegistry examplePatient none emptyCache).1
        = .ok { prediction := 1, probability := 1,
                model_name := "random_forest", model_version := "1" }
    ∧ ("chest pain type", 3) ∈ servingFrame examplePatient
    ∧ ∀ st : PrepState,
        ColName.raw "chest pain type"
          ∉ (apply_onehot_encoding st (toDf (servingFrame examplePatient))
              none false).1.cols := by
  refine ⟨rfl, by decide, ?_⟩
  intro st hmem
  simp only [apply_onehot_encoding, Option.getD_none] at hmem
  rcases List.mem_append.mp hmem with h | h
  · have hp := (List.mem_filter.mp h).2
    simp [defaultCats] at hp
  · exact raw_not_mem_encColNames _ _ h

end HeartPipeline
